import Mathlib

/-!
Shallow embedding of the teacher_app backend (attendance ledger, QR identity
encoder, JWT session tokens) for checking its specification.

Database tables are modelled as lists of rows; SQLite's per-statement
auto-commit in `DatabaseManager.execute_query` is modelled by threading the
state through each statement.  `PRAGMA foreign_keys = ON` is set on every
connection and both live schema variants declare
`FOREIGN KEY ... ON DELETE CASCADE` from attendance to students, so foreign
keys and the student-deletion cascade are modelled.  Statement failures
(locked database, disk errors) are modelled by explicit fault flags on the
operations that issue several statements.
-/

namespace TeacherApp

/-- One row of the `attendance` table (src/db/attendance.py, create_attendance_table). -/
structure AttendanceRecord where
  attendance_id : Nat
  student_id : Nat
  group_id : Nat
  date : String
  present : Bool
deriving DecidableEq, Repr

/-- One row of the `students` table (src/db/connection.py, initialize_database). -/
structure Student where
  student_id : Nat
  name : String
  group_id : Nat
  attendance_count : Nat
deriving DecidableEq, Repr

/-- One row of the `groups` table (src/db/teacher_groups.py, create_table). -/
structure Group where
  group_id : Nat
  name : String
  class_name : String
  teacher_id : Nat
deriving DecidableEq, Repr

/-- One row of the `exams` table (src/db/exam.py). -/
structure ExamRec where
  exam_id : Nat
  title : String
  date : String
  group_id : Nat
deriving DecidableEq, Repr

/-- The relational store: the tables touched by the attendance subsystem,
plus the AUTOINCREMENT cursors for their primary keys. -/
structure DBState where
  groups : List Group
  students : List Student
  attendance : List AttendanceRecord
  exams : List ExamRec
  nextGroupId : Nat
  nextStudentId : Nat
  nextAttendanceId : Nat
deriving DecidableEq, Repr

/-- The empty freshly-created database. -/
def initState : DBState := ⟨[], [], [], [], 1, 1, 1⟩

/-- Model of `SELECT attendance_id FROM attendance WHERE student_id = ? AND date = ?`
(the duplicate check in record_attendance): keyed by (student, date) only,
the group is not part of the lookup. -/
def hasRecordFor (att : List AttendanceRecord) (sid : Nat) (date : String) : Bool :=
  att.any (fun r => r.student_id == sid && r.date == date)

/-- A `students` row with this id exists (foreign-key target of attendance.student_id). -/
def studentExists (s : DBState) (sid : Nat) : Bool :=
  s.students.any (fun st => st.student_id == sid)

/-- A `groups` row with this id exists (foreign-key target of attendance.group_id). -/
def groupExists (s : DBState) (gid : Nat) : Bool :=
  s.groups.any (fun g => g.group_id == gid)

/-- Number of attendance rows of this student with `present = 1`:
the quantity `students.attendance_count` caches. -/
def presentCount (sid : Nat) : List AttendanceRecord → Nat
  | [] => 0
  | r :: rest => (if r.student_id == sid && r.present then 1 else 0) + presentCount sid rest

/-- The distinct outcomes of `record_attendance` (src/db/attendance.py).
The Python function collapses all of them to a single bool: only
`recorded` maps to `True` (see `RecordResult.toBool`). -/
inductive RecordResult where
  | rejected        -- `not all([student_id, group_id, date])`: invalid parameters
  | alreadyRecorded -- duplicate (student_id, date) found by the SELECT
  | recorded        -- insert succeeded (and the counter update, if any, ran)
  | failed          -- a statement raised; caught by the blanket `except`
deriving DecidableEq, Repr

/-- The boolean the Python function actually returns. -/
def RecordResult.toBool : RecordResult → Bool
  | .recorded => true
  | _ => false

/-- Model of `record_attendance(student_id, group_id, date, present)` with explicit
fault flags for the two mutating statements.  Each `execute_query` call is a
separate auto-committed transaction:
* `insertFault` — the INSERT raises (or affects no row); nothing is stored.
  A foreign-key violation (missing student or group, `PRAGMA foreign_keys = ON`)
  raises the same way.
* `updateFault` — the counter UPDATE raises; the INSERT has already been
  committed by its own `execute_query`, so the record stays. -/
def record_attendance_f (insertFault updateFault : Bool)
    (sid gid : Nat) (date : String) (present : Bool) (s : DBState) :
    RecordResult × DBState :=
  if sid == 0 || gid == 0 || date == "" then
    (.rejected, s)
  else if hasRecordFor s.attendance sid date then
    (.alreadyRecorded, s)
  else if insertFault || !(studentExists s sid) || !(groupExists s gid) then
    (.failed, s)
  else
    let r : AttendanceRecord :=
      ⟨s.nextAttendanceId, sid, gid, date, present⟩
    let s1 : DBState :=
      { s with attendance := s.attendance ++ [r],
               nextAttendanceId := s.nextAttendanceId + 1 }
    if present then
      if updateFault then (.failed, s1)
      else
        (.recorded,
          { s1 with students := s1.students.map (fun st =>
              if st.student_id == sid then
                { st with attendance_count := st.attendance_count + 1 }
              else st) })
    else (.recorded, s1)

/-- Model of `record_attendance` on a fault-free run. -/
def record_attendance (sid gid : Nat) (date : String) (present : Bool)
    (s : DBState) : RecordResult × DBState :=
  record_attendance_f false false sid gid date present s

/-- The `for student_id in absent_student_ids` loop of `mark_absent_students`:
runs `record_attendance(..., present=False)` on every id and counts the
successes. -/
def mark_absent_loop (gid : Nat) (date : String) :
    List Nat → DBState → Nat × DBState
  | [], s => (0, s)
  | sid :: rest, s =>
      let step := record_attendance sid gid date false s
      let next := mark_absent_loop gid date rest step.2
      ((if step.1 == .recorded then 1 else 0) + next.1, next.2)

/-- Model of `mark_absent_students(group_id, date, absent_student_ids)`:
validates the parameters (Python truthiness: zero id, empty date or empty
list are falsy) and returns `success_count > 0` — a bool, not the count. -/
def mark_absent_students (gid : Nat) (date : String) (ids : List Nat)
    (s : DBState) : Bool × DBState :=
  if gid == 0 || date == "" || ids.isEmpty then (false, s)
  else
    let res := mark_absent_loop gid date ids s
    (decide (0 < res.1), res.2)

/-- Model of `remove_student(student_id)` (src/db/student.py):
`DELETE FROM students WHERE student_id = ?`; with foreign keys on, the
`ON DELETE CASCADE` from attendance.student_id removes the student's
attendance rows.  Returns `rows_affected > 0`. -/
def remove_student (sid : Nat) (s : DBState) : Bool × DBState :=
  if sid == 0 then (false, s)
  else
    if s.students.any (fun st => st.student_id == sid) then
      (true,
        { s with students := s.students.filter (fun st => !(st.student_id == sid)),
                 attendance := s.attendance.filter (fun r => !(r.student_id == sid)) })
    else (false, s)

/-- Model of `delete_group_by_id(group_id)` (src/db/teacher_groups.py): deletes, in
order, attendance rows of the group, exams of the group, students of the
group (cascading to those students' remaining attendance rows), then the
group row; commits all of it, and returns whether a group row was deleted. -/
def delete_group_by_id (gid : Nat) (s : DBState) : Bool × DBState :=
  if gid == 0 then (false, s)
  else
    let att1 := s.attendance.filter (fun r => !(r.group_id == gid))
    let exams1 := s.exams.filter (fun e => !(e.group_id == gid))
    -- DELETE FROM students WHERE group_id = ?  (cascade removes their attendance)
    let att2 := att1.filter (fun r =>
      !(s.students.any (fun st => st.student_id == r.student_id && st.group_id == gid)))
    let st1 := s.students.filter (fun st => !(st.group_id == gid))
    let deleted := s.groups.any (fun g => g.group_id == gid)
    (deleted,
      { s with groups := s.groups.filter (fun g => !(g.group_id == gid)),
               students := st1, attendance := att2, exams := exams1 })

/-- Model of `create_group(group_name, class_name, teacher_id)` (src/db/teacher_groups.py). -/
def create_group (group_name class_name : String) (teacher_id : Nat)
    (s : DBState) : Option Nat × DBState :=
  if group_name == "" || class_name == "" || teacher_id == 0 then (none, s)
  else
    let g : Group := ⟨s.nextGroupId, group_name.trim, class_name.trim, teacher_id⟩
    (some s.nextGroupId,
      { s with groups := s.groups ++ [g], nextGroupId := s.nextGroupId + 1 })

/-- Model of `add_student(name, group_id)` (src/db/student.py); the INSERT fails on a
foreign-key violation when the group does not exist. -/
def add_student (name : String) (gid : Nat) (s : DBState) :
    Option Nat × DBState :=
  if name == "" || gid == 0 then (none, s)
  else if !(groupExists s gid) then (none, s)
  else
    let st : Student := ⟨s.nextStudentId, name.trim, gid, 0⟩
    (some s.nextStudentId,
      { s with students := s.students ++ [st], nextStudentId := s.nextStudentId + 1 })

/-- Model of `get_students_in_group(group_id)` (src/db/student.py).  The source also
orders by name; the ordering is irrelevant to the properties checked here. -/
def get_students_in_group (gid : Nat) (s : DBState) : List Student :=
  if gid == 0 then []
  else s.students.filter (fun st => st.group_id == gid)

/-! ### Session tokens (src/auth/JWT.py)

A JWT signed with the shared server secret is modelled by its payload: the
claims dictionary.  Only the claim keys the code reads or writes are tracked
(`username`, `exp`, `iat`, `type`); `Option` encodes key presence.  Encoding
and decoding with the same secret round-trips the payload; tokens whose
signature or structure check fails are modelled by a decode oracle returning
`none` (see `verify_token_str`). -/

/-- The claims dictionary of a token payload. -/
structure Claims where
  username : Option String
  exp : Option Int
  iat : Option Int
  type : Option String
deriving DecidableEq, Repr

/-- Python `dict.update`: keys present in `a` override `d`. -/
def dictUpdate (d a : Claims) : Claims :=
  { username := a.username <|> d.username,
    exp := a.exp <|> d.exp,
    iat := a.iat <|> d.iat,
    type := a.type <|> d.type }

/-- Model of `config.JWT_EXPIRATION_HOURS` default (src/config.py). -/
def JWT_EXPIRATION_HOURS : Int := 24

/-- Model of `generate_token(data)`: copies the data and overwrites the `exp`, `iat`
and `type` claims; `exp = now + timedelta(hours=JWT_EXPIRATION_HOURS)`.
Timestamps are integer seconds; the clock reading is the `now` argument. -/
def generate_token (data : Claims) (now : Int) : Claims :=
  { data with exp := some (now + JWT_EXPIRATION_HOURS * 3600),
              iat := some now,
              type := some "access_token" }

/-- Model of `create_access_token(username, additional_claims)`. -/
def create_access_token (username : String) (additional : Option Claims)
    (now : Int) : Claims :=
  let data : Claims := ⟨some username, none, none, none⟩
  let data := match additional with
    | some a => dictUpdate data a
    | none => data
  generate_token data now

/-- The typed 401 errors `verify_token` raises (HTTPException detail texts
in `errorDetail`). -/
inductive TokenError where
  | expired         -- jwt.ExpiredSignatureError
  | malformed       -- jwt.InvalidTokenError (signature / structure)
  | missingUsername -- payload has no username claim
  | invalidType     -- type claim is not "access_token"
deriving DecidableEq, Repr

/-- The `detail` string of the HTTPException raised for each error. -/
def errorDetail : TokenError → String
  | .expired => "Token expired"
  | .malformed => "Invalid token"
  | .missingUsername => "Invalid token: missing username"
  | .invalidType => "Invalid token type"

/-- Model of `jwt.decode` validates `exp` (when the claim is present) against the
current time before the payload is handed back. -/
def isExpired (p : Claims) (now : Int) : Bool :=
  match p.exp with
  | some e => decide (e < now)
  | none => false

/-- Model of `verify_token(token)` on an already-decoded payload: expiry is checked
by `jwt.decode` itself, then the username claim, then the type claim. -/
def verify_token (p : Claims) (now : Int) : Except TokenError String :=
  if isExpired p now then .error .expired
  else
    match p.username with
    | none => .error .missingUsername
    | some u =>
        if p.type == some "access_token" then .ok u
        else .error .invalidType

/-- Model of `verify_token` on a token string: `decodeOk` is the outcome of
`jwt.decode`'s signature/structure check (`none` = InvalidTokenError). -/
def verify_token_str (decodeOk : String → Option Claims) (t : String)
    (now : Int) : Except TokenError String :=
  match decodeOk t with
  | none => .error .malformed
  | some p => verify_token p now

/-- The parts of a request `get_current_teacher_optional` reads. -/
structure HttpRequest where
  authorization : Option String  -- request.headers.get("Authorization")
  tokenParam : Option String     -- request.query_params.get("token")
deriving DecidableEq, Repr

/-- Python's `str.startswith`: code-point prefix test. -/
def pyStartsWith (s pre : String) : Bool :=
  pre.data.isPrefixOf s.data

/-- Python's slice `s[n:]`: drop the first `n` code points. -/
def pyDrop (s : String) (n : Nat) : String :=
  ⟨s.data.drop n⟩

/-- The token-extraction logic of `get_current_teacher_optional`: header
first (only when it starts with `"Bearer "`, in which case the prefix's 7
characters are stripped; the remainder must be truthy, i.e. non-empty),
else the `token` query parameter; an empty or missing value in both places
yields no token.  (Python's `if auth_header` truthiness test is subsumed:
the empty string does not start with `"Bearer "`.) -/
def extractToken (req : HttpRequest) : Option String :=
  let fromHeader : Option String :=
    match req.authorization with
    | some h => if pyStartsWith h "Bearer " then some (pyDrop h 7) else none
    | none => none
  let token : Option String :=
    match fromHeader with
    | some t => if t == "" then req.tokenParam else some t
    | none => req.tokenParam
  match token with
  | some t => if t == "" then none else some t
  | none => none

/-- Model of `get_current_teacher_optional(request)`: `none` when no token was found
in either source; otherwise the outcome of `verify_token` on the token. -/
def get_current_teacher_optional (decodeOk : String → Option Claims)
    (req : HttpRequest) (now : Int) : Option (Except TokenError String) :=
  match extractToken req with
  | none => none
  | some t => some (verify_token_str decodeOk t now)

/-! ### QR generation and the filesystem (src/db/student.py, src/main.py)

The filesystem is a finite map from path to file size.  `generate_student_qr`
builds the image in memory and saves it; the outcome of the `img.save` call
is a fault parameter: it may raise before touching the file, raise after a
partial write, or complete having written `size` bytes (a completed write of
0 bytes is the zero-byte-artifact case the source then checks for). -/

/-- Files on disk: (path, size in bytes). -/
structure FS where
  files : List (String × Nat)
deriving DecidableEq, Repr

/-- Write (or overwrite) a file. -/
def writeFile (fs : FS) (p : String) (n : Nat) : FS :=
  ⟨(p, n) :: fs.files.filter (fun f => !(f.1 == p))⟩

/-- Model of `os.remove` (the source's cleanup swallows errors; removal succeeding is
the modelled case). -/
def removeFile (fs : FS) (p : String) : FS :=
  ⟨fs.files.filter (fun f => !(f.1 == p))⟩

/-- Model of `os.path.getsize`, `none` when the file does not exist. -/
def fileSize (fs : FS) (p : String) : Option Nat :=
  (fs.files.find? (fun f => f.1 == p)).map (fun f => f.2)

/-- Model of `os.path.exists`. -/
def fileExists (fs : FS) (p : String) : Bool :=
  fs.files.any (fun f => f.1 == p)

/-- Outcome of the in-`try` image build and `img.save` in
`generate_student_qr`. -/
inductive QrFault where
  | ok (size : Nat)          -- save returned; the file now holds `size` bytes
  | raiseBeforeWrite         -- an exception before the file was created
  | raiseMidWrite (size : Nat) -- an exception after a partial write
deriving DecidableEq, Repr

/-- Model of `f"qrcodes/student_{student_id}.png"`. -/
def qrPath (sid : Nat) : String :=
  "qrcodes/student_" ++ toString sid ++ ".png"

/-- Model of `generate_student_qr(student_id)`: on success checks that the file exists
and is non-empty (returning `None` and leaving the file when the size is 0);
on an exception removes whatever file sits at the path and returns `None`. -/
def generate_student_qr (fault : QrFault) (sid : Nat) (fs : FS) :
    Option String × FS :=
  match fault with
  | .ok n =>
      let fs' := writeFile fs (qrPath sid) n
      if 0 < n then (some (qrPath sid), fs') else (none, fs')
  | .raiseBeforeWrite => (none, removeFile fs (qrPath sid))
  | .raiseMidWrite n => (none, removeFile (writeFile fs (qrPath sid) n) (qrPath sid))

/-! ### Endpoints (src/main.py) -/

/-- Model of `config.MAX_STUDENTS_PER_GROUP` default (src/config.py). -/
def MAX_STUDENTS_PER_GROUP : Nat := 500

/-- The errors the modelled endpoints raise (HTTPException status + detail). -/
inductive ApiError where
  | notFound (detail : String)   -- 404
  | badRequest (detail : String) -- 400
  | internal (detail : String)   -- 500
deriving DecidableEq, Repr

/-- The per-student loop of `get_group_qrcodes_endpoint`: generates each QR
and keeps the paths of the files that exist and are non-empty.  The safe
ZIP-entry filename derived from the student name does not affect the checked
properties and is not tracked. -/
def qrLoop (faults : Nat → QrFault) : List Student → FS → List String × FS
  | [], fs => ([], fs)
  | st :: rest, fs =>
      let step := generate_student_qr (faults st.student_id) st.student_id fs
      let keep : List String :=
        match step.1 with
        | some p => if fileExists step.2 p && 0 < (fileSize step.2 p).getD 0 then [p] else []
        | none => []
      let next := qrLoop faults rest step.2
      (keep ++ next.1, next.2)

/-- Model of `get_group_qrcodes_endpoint(group_id)` up to the collection of valid QR
files: 404 when the group has no students, 400 when it exceeds
`MAX_STUDENTS_PER_GROUP` (both raised before any QR is generated), 500 when
every generation failed.  The subsequent ZIP packaging stage is outside the
claims checked here and is not modelled; success returns the collected
paths. -/
def get_group_qrcodes_endpoint (faults : Nat → QrFault) (gid : Nat)
    (s : DBState) (fs : FS) : Except ApiError (List String) × FS :=
  let students := get_students_in_group gid s
  if students.isEmpty then
    (.error (.notFound "No students found in this group"), fs)
  else if MAX_STUDENTS_PER_GROUP < students.length then
    (.error (.badRequest ("Group too large. Maximum " ++
      toString MAX_STUDENTS_PER_GROUP ++ " students allowed for bulk download")), fs)
  else
    let run := qrLoop faults students fs
    if run.1.isEmpty then
      (.error (.internal "Failed to generate any QR codes"), run.2)
    else (.ok run.1, run.2)

/-- Responses of the `/attendance/scan` endpoint. -/
inductive ScanResponse where
  | badRequest (detail : String)        -- HTTPException 400
  | ok (success : Bool) (message : String)
deriving DecidableEq, Repr

/-- Python truthiness of `request.get('student_id')` (absent or zero). -/
def natFalsy : Option Nat → Bool
  | none => true
  | some n => n == 0

/-- Python truthiness of `request.get('date')` (absent or empty). -/
def strFalsy : Option String → Bool
  | none => true
  | some d => d == ""

/-- Model of `scan_attendance` (src/main.py): validates the request fields, calls
`record_attendance`, and maps its single boolean onto exactly two messages —
every `False` is reported as already-recorded. -/
def scan_attendance (insertFault updateFault : Bool)
    (sid gid : Option Nat) (date : Option String) (present : Bool)
    (s : DBState) : ScanResponse × DBState :=
  if natFalsy sid || natFalsy gid || strFalsy date then
    (.badRequest "Missing required fields: student_id, group_id, date", s)
  else
    let run := record_attendance_f insertFault updateFault
      (sid.getD 0) (gid.getD 0) (date.getD "") present s
    if run.1.toBool then (.ok true "Attendance recorded successfully", run.2)
    else (.ok false "Attendance already recorded for this student today", run.2)

/-! ### The attendance-count invariant and reachable states -/

/-- The spec's cached-aggregate invariant: every student row's
`attendance_count` equals the number of that student's `present = 1`
attendance rows. -/
def countInvariant (s : DBState) : Prop :=
  ∀ st ∈ s.students, st.attendance_count = presentCount st.student_id s.attendance

instance (s : DBState) : Decidable (countInvariant s) := by
  unfold countInvariant; infer_instance

/-- Every attendance record is filed under the group its student belongs to.
`record_attendance` does not enforce this: the caller's `group_id` is stored
verbatim. -/
def recordsMatchStudentGroups (s : DBState) : Prop :=
  ∀ r ∈ s.attendance, ∀ st ∈ s.students,
    r.student_id = st.student_id → r.group_id = st.group_id

instance (s : DBState) : Decidable (recordsMatchStudentGroups s) := by
  unfold recordsMatchStudentGroups; infer_instance

/-- States reachable from the fresh database through the modelled mutating
operations (fault-free runs). -/
inductive Reachable : DBState → Prop where
  | init : Reachable initState
  | createGroup (n c : String) (t : Nat) {s : DBState} :
      Reachable s → Reachable (create_group n c t s).2
  | addStudent (n : String) (g : Nat) {s : DBState} :
      Reachable s → Reachable (add_student n g s).2
  | record (sid gid : Nat) (d : String) (p : Bool) {s : DBState} :
      Reachable s → Reachable (record_attendance sid gid d p s).2
  | markAbsent (gid : Nat) (d : String) (ids : List Nat) {s : DBState} :
      Reachable s → Reachable (mark_absent_students gid d ids s).2
  | removeStudent (sid : Nat) {s : DBState} :
      Reachable s → Reachable (remove_student sid s).2
  | deleteGroup (gid : Nat) {s : DBState} :
      Reachable s → Reachable (delete_group_by_id gid s).2

/-! ### Concrete states used by witnesses and counterexamples -/

/-- Group 1 with one student (id 1). -/
def oneStudentState : DBState :=
  (add_student "bob" 1 (create_group "A" "c" 1 initState).2).2

/-- Group 1, student 1, one present record for student 1 under group 1 on
2024-01-01. -/
def recordedState : DBState :=
  (record_attendance 1 1 "2024-01-01" true oneStudentState).2

/-- Groups 1 and 2; student 1 belongs to group 2 but has a present record
filed under group 1 (record_attendance accepts any existing group id). -/
def crossGroupState : DBState :=
  (record_attendance 1 1 "2024-01-01" true
    (add_student "bob" 2
      (create_group "B" "c" 1 (create_group "A" "c" 1 initState).2).2).2).2

/-- Group 1 with students 1, 2, 3, where student 2 already has a record for
2024-01-01. -/
def threeStudentState : DBState :=
  (record_attendance 2 1 "2024-01-01" false
    (add_student "carl" 1 (add_student "bia" 1 (add_student "abe" 1
      (create_group "A" "c" 1 initState).2).2).2).2).2

/-- A list of `n` students (ids 1..n), all in group 1. -/
def mkNStudents : Nat → List Student
  | 0 => []
  | n + 1 => ⟨n + 1, "s", 1, 0⟩ :: mkNStudents n

/-- Group 1 holding 501 students: one over `MAX_STUDENTS_PER_GROUP`. -/
def bigGroupState : DBState :=
  { initState with groups := [⟨1, "A", "c", 1⟩],
                   students := mkNStudents 501,
                   nextGroupId := 2, nextStudentId := 502 }


/-! ### Counting lemmas -/

theorem presentCount_append (sid : Nat) (l₁ l₂ : List AttendanceRecord) :
    presentCount sid (l₁ ++ l₂) = presentCount sid l₁ + presentCount sid l₂ := by
  induction l₁ with
  | nil => simp [presentCount]
  | cons r rest ih =>
      simp only [List.cons_append, presentCount, List.append_eq]
      rw [ih]
      omega

theorem presentCount_filter_of (sid : Nat) (q : AttendanceRecord → Bool)
    (l : List AttendanceRecord)
    (h : ∀ r ∈ l, r.student_id = sid → q r = true) :
    presentCount sid (l.filter q) = presentCount sid l := by
  induction l with
  | nil => rfl
  | cons r rest ih =>
      have hrest : ∀ x ∈ rest, x.student_id = sid → q x = true :=
        fun x hx => h x (List.mem_cons_of_mem _ hx)
      cases hq : q r with
      | true => simp [List.filter_cons, hq, presentCount, ih hrest]
      | false =>
          have hne : r.student_id ≠ sid := by
            intro he
            rw [h r (List.mem_cons_self _ _) he] at hq
            exact Bool.true_eq_false.mp hq
          have hbe : (r.student_id == sid) = false := by
            simp [hne]
          simp [List.filter_cons, hq, presentCount, ih hrest, hbe]

/-! ### Preservation of the attendance-count invariant -/

theorem record_attendance_preserves_inv (sid gid : Nat) (d : String) (p : Bool)
    (s : DBState) (h : countInvariant s) :
    countInvariant (record_attendance sid gid d p s).2 := by
  unfold record_attendance record_attendance_f
  split
  · exact h
  split
  · exact h
  split
  · exact h
  simp only [Bool.false_eq_true, if_false]
  split
  case isTrue hp =>
    intro st' hst'
    simp only [List.mem_map] at hst'
    rcases hst' with ⟨st, hmem, rfl⟩
    by_cases hb : st.student_id = sid
    · simp only [hb, beq_self_eq_true, if_true]
      rw [presentCount_append]
      simp [presentCount, hb, hp, h st hmem]
    · have hbe : (st.student_id == sid) = false := by simp [hb]
      simp only [hbe, if_false]
      rw [presentCount_append]
      have hbe' : (sid == st.student_id) = false := by
        simp
        exact fun he => hb he.symm
      simp [presentCount, hbe', h st hmem]
  case isFalse hp =>
    intro st hmem
    have hpf : p = false := by simpa using hp
    rw [presentCount_append]
    simp [presentCount, hpf, h st hmem]

theorem mark_absent_loop_preserves_inv (gid : Nat) (d : String) (ids : List Nat)
    (s : DBState) (h : countInvariant s) :
    countInvariant (mark_absent_loop gid d ids s).2 := by
  induction ids generalizing s with
  | nil => exact h
  | cons x rest ih =>
      simp only [mark_absent_loop]
      exact ih _ (record_attendance_preserves_inv x gid d false s h)

theorem mark_absent_students_preserves_inv (gid : Nat) (d : String)
    (ids : List Nat) (s : DBState) (h : countInvariant s) :
    countInvariant (mark_absent_students gid d ids s).2 := by
  unfold mark_absent_students
  split
  · exact h
  · exact mark_absent_loop_preserves_inv gid d ids s h

theorem remove_student_preserves_inv (sid : Nat) (s : DBState)
    (h : countInvariant s) :
    countInvariant (remove_student sid s).2 := by
  unfold remove_student
  split
  · exact h
  split
  · intro st hst
    have hmem := List.mem_filter.mp hst
    have hne : st.student_id ≠ sid := by simpa using hmem.2
    rw [presentCount_filter_of]
    · exact h st hmem.1
    · intro r _ hr
      simp [hr, hne]
  · exact h

theorem delete_group_preserves_inv_of_match (gid : Nat) (s : DBState)
    (hm : recordsMatchStudentGroups s) (h : countInvariant s) :
    countInvariant (delete_group_by_id gid s).2 := by
  unfold delete_group_by_id
  split
  · exact h
  intro st hst
  have hmem := List.mem_filter.mp hst
  have hgne : st.group_id ≠ gid := by simpa using hmem.2
  have hq1 : ∀ r ∈ s.attendance, r.student_id = st.student_id →
      (!(r.group_id == gid)) = true := by
    intro r hr hrs
    have hge := hm r hr st hmem.1 hrs
    simp [hge, hgne]
  have hq2 : ∀ r ∈ s.attendance.filter (fun r => !(r.group_id == gid)),
      r.student_id = st.student_id →
      (!(s.students.any fun st' =>
          st'.student_id == r.student_id && st'.group_id == gid)) = true := by
    intro r hr hrs
    have hr1 := List.mem_filter.mp hr
    have hrg : r.group_id ≠ gid := by simpa using hr1.2
    cases hany : s.students.any (fun st' =>
        st'.student_id == r.student_id && st'.group_id == gid) with
    | false => simp
    | true =>
        exfalso
        rcases List.any_eq_true.mp hany with ⟨st', hst', hpred⟩
        have hpred' : st'.student_id = r.student_id ∧ st'.group_id = gid := by
          simpa using hpred
        rcases hpred' with ⟨h1, h2⟩
        have := hm r hr1.1 st' hst' h1.symm
        exact hrg (this.trans h2)
  rw [presentCount_filter_of _ _ _ hq2, presentCount_filter_of _ _ _ hq1]
  exact h st hmem.1

/-! ### Auxiliary filesystem lemmas -/

theorem fileExists_removeFile (fs : FS) (p : String) :
    fileExists (removeFile fs p) p = false := by
  unfold fileExists removeFile
  rw [Bool.eq_false_iff]
  intro hany
  rcases List.any_eq_true.mp hany with ⟨f, hf, hp⟩
  have hkeep := (List.mem_filter.mp hf).2
  rw [hp] at hkeep
  simp at hkeep

theorem fileSize_writeFile (fs : FS) (p : String) (n : Nat) :
    fileSize (writeFile fs p n) p = some n := by
  simp [fileSize, writeFile, List.find?]

/-! ### Lemmas about the concrete big-group state -/

theorem mkNStudents_length (n : Nat) : (mkNStudents n).length = n := by
  induction n with
  | zero => rfl
  | succ k ih => simp [mkNStudents, ih]

theorem mkNStudents_filter_group1 (n : Nat) :
    (mkNStudents n).filter (fun st => st.group_id == 1) = mkNStudents n := by
  induction n with
  | zero => rfl
  | succ k ih => simp [mkNStudents, ih]

theorem bigGroupState_students :
    get_students_in_group 1 bigGroupState = mkNStudents 501 := by
  unfold get_students_in_group bigGroupState initState
  simp [mkNStudents_filter_group1]

/-! ### Claim theorems -/

/-- C1: if an attendance record already exists for (student_id, date) —
regardless of which group it was recorded under — record_attendance returns
the already-recorded outcome (`False` at the Python level, and specifically
the AlreadyRecorded branch whenever the parameters pass validation), inserts
no record, and leaves the database (hence every attendance_count)
unchanged. -/
theorem duplicate_attendance_rejected_unchanged
    (sid gid : Nat) (d : String) (p : Bool) (s : DBState)
    (h : hasRecordFor s.attendance sid d = true) :
    (record_attendance sid gid d p s).2 = s ∧
    (record_attendance sid gid d p s).1.toBool = false ∧
    (sid ≠ 0 → gid ≠ 0 → d ≠ "" →
      (record_attendance sid gid d p s).1 = .alreadyRecorded) := by
  unfold record_attendance record_attendance_f
  split
  case isTrue hvalid =>
    refine ⟨rfl, rfl, ?_⟩
    intro h1 h2 h3
    exfalso
    simp [h1, h2, h3] at hvalid
  case isFalse hvalid =>
    exact ⟨rfl, rfl, fun _ _ _ => rfl⟩

/-- C1 witness: student 1 has a record for 2024-01-01 under group 1; a
second call — even under a different group id (2) — changes nothing and
reports AlreadyRecorded. -/
theorem duplicate_attendance_witness :
    (record_attendance 1 2 "2024-01-01" true recordedState).2 = recordedState ∧
    (record_attendance 1 2 "2024-01-01" true recordedState).1.toBool = false ∧
    (1 ≠ 0 → 2 ≠ 0 → "2024-01-01" ≠ "" →
      (record_attendance 1 2 "2024-01-01" true recordedState).1 = .alreadyRecorded) :=
  duplicate_attendance_rejected_unchanged 1 2 "2024-01-01" true recordedState
    (by decide)

/-- C2 (amended): each student's attendance_count equals the number of that
student's `present = 1` attendance records, and this is preserved by
record_attendance, mark_absent_students and remove_student unconditionally;
delete_group_by_id preserves it provided every attendance record is filed
under the group its student belongs to.  (Without that proviso it can break
the invariant: see the counterexample about cross-group records.) -/
theorem attendance_count_invariant_preservation :
    (∀ (sid gid : Nat) (d : String) (p : Bool) (s : DBState),
        countInvariant s → countInvariant (record_attendance sid gid d p s).2) ∧
    (∀ (gid : Nat) (d : String) (ids : List Nat) (s : DBState),
        countInvariant s → countInvariant (mark_absent_students gid d ids s).2) ∧
    (∀ (sid : Nat) (s : DBState),
        countInvariant s → countInvariant (remove_student sid s).2) ∧
    (∀ (gid : Nat) (s : DBState), recordsMatchStudentGroups s →
        countInvariant s → countInvariant (delete_group_by_id gid s).2) :=
  ⟨record_attendance_preserves_inv, mark_absent_students_preserves_inv,
   remove_student_preserves_inv, delete_group_preserves_inv_of_match⟩

/-- C2 witness: a concrete database where every record matches its student's
group; all four operations keep the invariant there. -/
theorem attendance_count_invariant_witness :
    countInvariant (record_attendance 2 1 "2024-01-02" true recordedState).2 ∧
    countInvariant (mark_absent_students 1 "2024-01-02" [1] recordedState).2 ∧
    countInvariant (remove_student 1 recordedState).2 ∧
    countInvariant (delete_group_by_id 1 recordedState).2 :=
  ⟨attendance_count_invariant_preservation.1 2 1 "2024-01-02" true recordedState
      (by decide),
   attendance_count_invariant_preservation.2.1 1 "2024-01-02" [1] recordedState
      (by decide),
   attendance_count_invariant_preservation.2.2.1 1 recordedState (by decide),
   attendance_count_invariant_preservation.2.2.2 1 recordedState (by decide)
      (by decide)⟩

/-- C2 counterexample: a reachable state in which delete_group_by_id breaks
the invariant.  Student 1 belongs to group 2 but their present record was
filed under group 1 (record_attendance never checks membership); deleting
group 1 removes the record while student 1 keeps attendance_count = 1. -/
theorem attendance_invariant_broken_by_group_delete :
    Reachable (delete_group_by_id 1 crossGroupState).2 ∧
    countInvariant crossGroupState ∧
    ¬ countInvariant (delete_group_by_id 1 crossGroupState).2 :=
  ⟨Reachable.deleteGroup 1 (Reachable.record 1 1 "2024-01-01" true
      (Reachable.addStudent "bob" 2 (Reachable.createGroup "B" "c" 1
        (Reachable.createGroup "A" "c" 1 Reachable.init)))),
   by decide, by decide⟩

/-- C3 (code bug): the INSERT and the counter UPDATE are separate
auto-committed `execute_query` transactions, not an atomic unit.  If the
INSERT fails nothing is stored (first conjunct — that half of the claim
holds), but if the UPDATE fails after a successful INSERT the function
returns `False` while the committed present-record stays with no increment,
violating the invariant the spec demands. -/
theorem record_attendance_not_atomic :
    ((record_attendance_f true false 1 1 "2024-01-01" true oneStudentState).2
      = oneStudentState) ∧
    ((record_attendance_f false true 1 1 "2024-01-01" true oneStudentState).1.toBool
      = false) ∧
    (hasRecordFor
      (record_attendance_f false true 1 1 "2024-01-01" true oneStudentState).2.attendance
      1 "2024-01-01" = true) ∧
    ¬ countInvariant
      (record_attendance_f false true 1 1 "2024-01-01" true oneStudentState).2 := by
  refine ⟨rfl, by decide, by decide, by decide⟩

/-- C4 counterexample: mark_absent_students does not return the count of
successful insertions — it returns `success_count > 0`.  On ids [1,2,3] with
a pre-existing record for id 2 the loop succeeds twice, on ids [1] it
succeeds once, yet the function returns the same value for both, so its
return cannot be the success count (and in particular is not 2). -/
theorem mark_absent_returns_bool_not_count :
    (mark_absent_loop 1 "2024-01-01" [1, 2, 3] threeStudentState).1 = 2 ∧
    (mark_absent_loop 1 "2024-01-01" [1] threeStudentState).1 = 1 ∧
    (mark_absent_students 1 "2024-01-01" [1, 2, 3] threeStudentState).1 =
      (mark_absent_students 1 "2024-01-01" [1] threeStudentState).1 := by
  refine ⟨by decide, by decide, by decide⟩

/-- C4 (amended): mark_absent_students applies record(..., present=false) to
each id independently — a duplicate does not block the others — and returns
`True` exactly when at least one insertion succeeded.  On group 1, date
2024-01-01, ids [1,2,3] with a prior record for id 2 it returns `True`
(not the count 2), the loop succeeds exactly twice, the two new records are
absences appended after the untouched prior records, and no
attendance_count changes. -/
theorem mark_absent_independent_bool :
    (∀ (gid : Nat) (d : String) (ids : List Nat) (s : DBState),
        (mark_absent_students gid d ids s).1 = true →
        0 < (mark_absent_loop gid d ids s).1) ∧
    (mark_absent_students 1 "2024-01-01" [1, 2, 3] threeStudentState).1 = true ∧
    (mark_absent_loop 1 "2024-01-01" [1, 2, 3] threeStudentState).1 = 2 ∧
    (mark_absent_students 1 "2024-01-01" [1, 2, 3] threeStudentState).2.attendance =
      threeStudentState.attendance ++
        [⟨2, 1, 1, "2024-01-01", false⟩, ⟨3, 3, 1, "2024-01-01", false⟩] ∧
    (mark_absent_students 1 "2024-01-01" [1, 2, 3] threeStudentState).2.students =
      threeStudentState.students := by
  constructor
  · intro gid d ids s hres
    unfold mark_absent_students at hres
    split at hres
    · simp at hres
    · exact of_decide_eq_true hres
  · exact ⟨by decide, by decide, by decide, rfl⟩

/-- C4 witness: the general conjunct applied at a concrete successful run. -/
theorem mark_absent_independent_bool_witness :
    0 < (mark_absent_loop 1 "2024-01-01" [1] threeStudentState).1 :=
  mark_absent_independent_bool.1 1 "2024-01-01" [1] threeStudentState (by decide)

/-- C5: verifying a freshly issued access token (same clock instant, before
expiry) returns the issued username; verifying any token whose expiry
timestamp lies in the past yields the Expired error and never a username. -/
theorem token_roundtrip_and_expiry :
    (∀ (u : String) (now : Int),
        verify_token (create_access_token u none now) now = .ok u) ∧
    (∀ (p : Claims) (now e : Int), p.exp = some e → e < now →
        verify_token p now = .error .expired) := by
  constructor
  · intro u now
    have hexp : ¬ (now + JWT_EXPIRATION_HOURS * 3600 < now) := by
      unfold JWT_EXPIRATION_HOURS; omega
    simp [create_access_token, generate_token, verify_token, isExpired, hexp]
  · intro p now e hexp hlt
    simp [verify_token, isExpired, hexp, hlt]

/-- C5 witness: a token that expired at time 0 is rejected as Expired at
time 10. -/
theorem token_roundtrip_witness :
    verify_token ⟨some "alice", some 0, some 0, some "access_token"⟩ 10 =
      .error .expired :=
  token_roundtrip_and_expiry.2 ⟨some "alice", some 0, some 0, some "access_token"⟩
    10 0 rfl (by decide)

/-- C6: get_current_teacher_optional takes the token from the Authorization
header first (stripping the `Bearer ` prefix), else from the `token` query
parameter; when both sources are absent it returns `none` instead of
raising; and whenever a token was extracted the response is exactly
`verify_token` on it, so an invalid token raises the same typed errors. -/
theorem optional_auth_behavior :
    (∀ (decodeOk : String → Option Claims) (now : Int),
        get_current_teacher_optional decodeOk ⟨none, none⟩ now = none) ∧
    (∀ (h : String) (q : Option String), pyStartsWith h "Bearer " = true →
        pyDrop h 7 ≠ "" → extractToken ⟨some h, q⟩ = some (pyDrop h 7)) ∧
    (∀ (q : String), extractToken ⟨none, some q⟩ =
        if q == "" then none else some q) ∧
    (∀ (decodeOk : String → Option Claims) (req : HttpRequest) (now : Int)
        (t : String), extractToken req = some t →
        get_current_teacher_optional decodeOk req now =
          some (verify_token_str decodeOk t now)) := by
  refine ⟨fun _ _ => rfl, ?_, fun q => rfl, ?_⟩
  · intro h q hsw hne
    have hbe : (pyDrop h 7 == "") = false := by simpa using hne
    simp [extractToken, hsw, hbe]
  · intro decodeOk req now t hext
    simp [get_current_teacher_optional, hext]

/-- C6 witness: a Bearer header wins over a query parameter, and an
extracted token is passed to verify_token verbatim. -/
theorem optional_auth_witness :
    extractToken ⟨some "Bearer abc", some "zzz"⟩ = some (pyDrop "Bearer abc" 7) ∧
    get_current_teacher_optional (fun _ => none) ⟨none, some "tok"⟩ 0 =
      some (verify_token_str (fun _ => none) "tok" 0) :=
  ⟨optional_auth_behavior.2.1 "Bearer abc" (some "zzz") (by decide) (by decide),
   optional_auth_behavior.2.2.2 (fun _ => none) ⟨none, some "tok"⟩ 0 "tok"
     (by decide)⟩

/-- C7 counterexample: when `img.save` completes but wrote 0 bytes,
generate_student_qr returns None (the failure is surfaced) yet the
zero-byte artifact is left on disk — the function only removes the file in
its exception handler. -/
theorem qr_zero_byte_file_left_on_disk :
    (generate_student_qr (.ok 0) 5 ⟨[]⟩).1 = none ∧
    fileSize (generate_student_qr (.ok 0) 5 ⟨[]⟩).2 (qrPath 5) = some 0 := by
  refine ⟨rfl, rfl⟩

/-- C7 (amended): when generate_student_qr fails with an exception (before
or during the write) it returns None and no file remains at the student's
QR path; when the written file exists but is zero bytes it returns None but
the zero-byte file remains on disk; a non-empty write returns the path. -/
theorem qr_failure_cleanup_behavior :
    (∀ (sid : Nat) (fs : FS),
        (generate_student_qr .raiseBeforeWrite sid fs).1 = none ∧
        fileExists (generate_student_qr .raiseBeforeWrite sid fs).2
          (qrPath sid) = false) ∧
    (∀ (sid n : Nat) (fs : FS),
        (generate_student_qr (.raiseMidWrite n) sid fs).1 = none ∧
        fileExists (generate_student_qr (.raiseMidWrite n) sid fs).2
          (qrPath sid) = false) ∧
    (∀ (sid : Nat) (fs : FS),
        (generate_student_qr (.ok 0) sid fs).1 = none ∧
        fileSize (generate_student_qr (.ok 0) sid fs).2 (qrPath sid) = some 0) ∧
    (∀ (sid n : Nat) (fs : FS), 0 < n →
        (generate_student_qr (.ok n) sid fs).1 = some (qrPath sid)) := by
  refine ⟨?_, ?_, ?_, ?_⟩
  · intro sid fs
    exact ⟨rfl, fileExists_removeFile fs (qrPath sid)⟩
  · intro sid n fs
    exact ⟨rfl, fileExists_removeFile (writeFile fs (qrPath sid) n) (qrPath sid)⟩
  · intro sid fs
    exact ⟨rfl, fileSize_writeFile fs (qrPath sid) 0⟩
  · intro sid n fs hn
    simp [generate_student_qr, hn]

/-- C7 witness: a successful 100-byte write returns the QR path. -/
theorem qr_failure_cleanup_witness :
    (generate_student_qr (.ok 100) 7 ⟨[]⟩).1 = some (qrPath 7) :=
  qr_failure_cleanup_behavior.2.2.2 7 100 ⟨[]⟩ (by decide)

/-- C8: the bulk QR export returns 404 Not Found for a group with no
students, and 400 (rejection) for a group whose student count exceeds
MAX_STUDENTS_PER_GROUP; both guards fire before any QR generation, so the
filesystem is returned untouched. -/
theorem bulk_qr_guards :
    (∀ (faults : Nat → QrFault) (gid : Nat) (s : DBState) (fs : FS),
        get_students_in_group gid s = [] →
        get_group_qrcodes_endpoint faults gid s fs =
          (.error (.notFound "No students found in this group"), fs)) ∧
    (∀ (faults : Nat → QrFault) (gid : Nat) (s : DBState) (fs : FS),
        MAX_STUDENTS_PER_GROUP < (get_students_in_group gid s).length →
        get_group_qrcodes_endpoint faults gid s fs =
          (.error (.badRequest ("Group too large. Maximum " ++
            toString MAX_STUDENTS_PER_GROUP ++
            " students allowed for bulk download")), fs)) := by
  constructor
  · intro faults gid s fs hempty
    simp [get_group_qrcodes_endpoint, hempty]
  · intro faults gid s fs hlen
    have hne : (get_students_in_group gid s).isEmpty = false := by
      cases hl : get_students_in_group gid s with
      | nil => rw [hl] at hlen; simp [MAX_STUDENTS_PER_GROUP] at hlen
      | cons a l => simp
    simp [get_group_qrcodes_endpoint, hne, hlen]

/-- C8 witness: the empty database (no students) yields 404; a 501-student
group yields the too-large rejection; in both cases the filesystem is
untouched. -/
theorem bulk_qr_guards_witness :
    get_group_qrcodes_endpoint (fun _ => .ok 100) 1 initState ⟨[]⟩ =
      (.error (.notFound "No students found in this group"), ⟨[]⟩) ∧
    get_group_qrcodes_endpoint (fun _ => .ok 100) 1 bigGroupState ⟨[]⟩ =
      (.error (.badRequest ("Group too large. Maximum " ++
        toString MAX_STUDENTS_PER_GROUP ++
        " students allowed for bulk download")), ⟨[]⟩) :=
  ⟨bulk_qr_guards.1 (fun _ => .ok 100) 1 initState ⟨[]⟩ rfl,
   bulk_qr_guards.2 (fun _ => .ok 100) 1 bigGroupState ⟨[]⟩ (by
     rw [bigGroupState_students, mkNStudents_length]
     decide)⟩

/-- C9: create_access_token always carries type claim "access_token" and an
expiry exactly JWT_EXPIRATION_HOURS after the issue time it records as iat;
caller-supplied exp, iat or type claims are overwritten by generate_token,
so additional_claims can never extend the expiry or change the token
class. -/
theorem access_token_claims_fixed :
    ∀ (u : String) (a : Option Claims) (now : Int),
      (create_access_token u a now).type = some "access_token" ∧
      (create_access_token u a now).exp =
        some (now + JWT_EXPIRATION_HOURS * 3600) ∧
      (create_access_token u a now).iat = some now := by
  intro u a now
  cases a <;> simp [create_access_token, generate_token, dictUpdate]

/-- C10: record_attendance collapses invalid parameters, duplicates and
internal storage failures (a failing INSERT, or a failing counter UPDATE on
a present recording) into the same return value False, and the scan
endpoint reports every False as "Attendance already recorded for this
student today". -/
theorem record_failure_modes_indistinct :
    (∀ (iF uF : Bool) (sid gid : Nat) (d : String) (p : Bool) (s : DBState),
        sid = 0 ∨ gid = 0 ∨ d = "" →
        (record_attendance_f iF uF sid gid d p s).1.toBool = false) ∧
    (∀ (iF uF : Bool) (sid gid : Nat) (d : String) (p : Bool) (s : DBState),
        hasRecordFor s.attendance sid d = true →
        (record_attendance_f iF uF sid gid d p s).1.toBool = false) ∧
    (∀ (uF : Bool) (sid gid : Nat) (d : String) (p : Bool) (s : DBState),
        (record_attendance_f true uF sid gid d p s).1.toBool = false) ∧
    (∀ (sid gid : Nat) (d : String) (s : DBState),
        (record_attendance_f false true sid gid d true s).1.toBool = false) ∧
    (∀ (iF uF : Bool) (sid gid : Option Nat) (d : Option String) (p : Bool)
        (s : DBState) (m : String),
        (scan_attendance iF uF sid gid d p s).1 = .ok false m →
        m = "Attendance already recorded for this student today") := by
  refine ⟨?_, ?_, ?_, ?_, ?_⟩
  · intro iF uF sid gid d p s hbad
    rcases hbad with h | h | h <;> simp [record_attendance_f, h, RecordResult.toBool]
  · intro iF uF sid gid d p s hdup
    unfold record_attendance_f
    split
    · rfl
    · simp [hdup, RecordResult.toBool]
  · intro uF sid gid d p s
    unfold record_attendance_f
    split
    · rfl
    split
    · rfl
    rw [if_pos]
    · rfl
    · simp
  · intro sid gid d s
    unfold record_attendance_f
    split
    · rfl
    split
    · rfl
    split
    · rfl
    simp [RecordResult.toBool]
  · intro iF uF sid gid d p s m h
    simp only [scan_attendance] at h
    split at h
    · simp at h
    · split at h
      · simp at h
      · injection h with h1 h2
        exact h2.symm

/-- C10 witness: a zero student id, a duplicate, and an UPDATE fault all
return False; the scan endpoint's message for the UPDATE-fault case is the
already-recorded text. -/
theorem record_failure_modes_witness :
    (record_attendance_f false false 0 1 "2024-01-01" true initState).1.toBool
      = false ∧
    (record_attendance_f false false 2 1 "2024-01-01" true
      threeStudentState).1.toBool = false ∧
    "Attendance already recorded for this student today" =
      "Attendance already recorded for this student today" :=
  ⟨record_failure_modes_indistinct.1 false false 0 1 "2024-01-01" true initState
      (Or.inl rfl),
   record_failure_modes_indistinct.2.1 false false 2 1 "2024-01-01" true
      threeStudentState (by decide),
   record_failure_modes_indistinct.2.2.2.2 false true (some 1) (some 1)
      (some "2024-01-01") true threeStudentState
      "Attendance already recorded for this student today" (by decide)⟩

end TeacherApp
